import Mathlib

/-
Verification of the inventory-demand-forecast library.

The JavaScript sources are shallowly embedded as Lean definitions.
JavaScript numbers are modelled exactly: a finite number is an exact
rational (the IEEE-754 representation/rounding error of `number` is
abstracted away), while the special values Infinity, -Infinity and NaN
are explicit constructors whose arithmetic follows the JavaScript /
IEEE-754 rules (NaN propagates, 0 * Infinity = NaN, x / 0 = Infinity
for x > 0, comparisons with NaN are false, and so on).

`Number.prototype.toFixed(2)` followed by `Number(...)` is modelled as
exact rounding to 2 decimal places with ties going to the larger value,
which is the ECMAScript specification of toFixed in exact arithmetic.

The intermediate values `Math.sqrt(variance)` and
`zScore * stdDev * Math.sqrt(leadTime)` are irrational; they are carried
exactly in the symbolic form  c * sqrt(r)  (type `RNum`) until the
2-decimal rounding that the source applies before returning them, and
that rounding is computed exactly with an integer square root.
-/

/-- A JavaScript number: an exact finite value, one of the two infinities,
or NaN. -/
inductive JNum where
  | fin (q : ℚ)
  | inf
  | negInf
  | nan
deriving DecidableEq, Repr

/-- JavaScript unary minus on numbers. -/
def jneg : JNum → JNum
  | .fin q => .fin (-q)
  | .inf => .negInf
  | .negInf => .inf
  | .nan => .nan

/-- JavaScript addition (IEEE rules on the special values). -/
def jadd : JNum → JNum → JNum
  | .nan, _ => .nan
  | _, .nan => .nan
  | .fin a, .fin b => .fin (a + b)
  | .inf, .negInf => .nan
  | .negInf, .inf => .nan
  | .inf, _ => .inf
  | _, .inf => .inf
  | .negInf, _ => .negInf
  | _, .negInf => .negInf

/-- JavaScript subtraction. -/
def jsub (a b : JNum) : JNum := jadd a (jneg b)

/-- JavaScript multiplication (0 * Infinity = NaN, sign rules on infinities). -/
def jmul : JNum → JNum → JNum
  | .nan, _ => .nan
  | _, .nan => .nan
  | .fin a, .fin b => .fin (a * b)
  | .inf, .inf => .inf
  | .inf, .negInf => .negInf
  | .negInf, .inf => .negInf
  | .negInf, .negInf => .inf
  | .inf, .fin b => if b = 0 then .nan else if 0 < b then .inf else .negInf
  | .fin a, .inf => if a = 0 then .nan else if 0 < a then .inf else .negInf
  | .negInf, .fin b => if b = 0 then .nan else if 0 < b then .negInf else .inf
  | .fin a, .negInf => if a = 0 then .nan else if 0 < a then .negInf else .inf

/-- JavaScript division (x/0 is a signed infinity for x not 0, 0/0 = NaN,
finite/infinite = 0, infinite/infinite = NaN; the sign of zero is not
tracked). -/
def jdiv : JNum → JNum → JNum
  | .nan, _ => .nan
  | _, .nan => .nan
  | .fin a, .fin b =>
      if b = 0 then (if a = 0 then .nan else if 0 < a then .inf else .negInf)
      else .fin (a / b)
  | .fin _, .inf => .fin 0
  | .fin _, .negInf => .fin 0
  | .inf, .fin b => if 0 ≤ b then .inf else .negInf
  | .negInf, .fin b => if 0 ≤ b then .negInf else .inf
  | .inf, .inf => .nan
  | .inf, .negInf => .nan
  | .negInf, .inf => .nan
  | .negInf, .negInf => .nan

/-- JavaScript strict less-than on numbers: false whenever NaN is involved. -/
def jlt : JNum → JNum → Bool
  | .nan, _ => false
  | _, .nan => false
  | .fin a, .fin b => decide (a < b)
  | .negInf, .negInf => false
  | .negInf, _ => true
  | _, .negInf => false
  | .inf, _ => false
  | .fin _, .inf => true

/-- JavaScript less-or-equal on numbers: false whenever NaN is involved. -/
def jle : JNum → JNum → Bool
  | .nan, _ => false
  | _, .nan => false
  | .fin a, .fin b => decide (a ≤ b)
  | .negInf, _ => true
  | _, .negInf => false
  | _, .inf => true
  | .inf, .fin _ => false

/-- Exact 2-decimal rounding of a rational, ties to the larger value: this is
what `Number(x.toFixed(2))` computes in exact arithmetic. -/
def round2 (q : ℚ) : ℚ := ((⌊100 * q + 1 / 2⌋ : ℤ) : ℚ) / 100

/-- `Number(x.toFixed(2))` on a JavaScript number: rounding on finite values,
identity on infinities and NaN (their toFixed strings parse back to
themselves). -/
def jround2 : JNum → JNum
  | .fin q => .fin (round2 q)
  | .inf => .inf
  | .negInf => .negInf
  | .nan => .nan

/-- Fuel-indexed integer square root by quartering; with fuel at least the
value itself it computes the floor of the square root (see isqrt_spec). -/
def isqrtAux : ℕ → ℕ → ℕ
  | 0, _ => 0
  | _, 0 => 0
  | f + 1, n =>
      let r := isqrtAux f (n / 4)
      if (2 * r + 1) * (2 * r + 1) ≤ n then 2 * r + 1 else 2 * r

/-- Integer square root (floor of the real square root). -/
def isqrt (n : ℕ) : ℕ := isqrtAux n n

theorem isqrtAux_spec (f : ℕ) : ∀ n : ℕ, n < 4 ^ f →
    (isqrtAux f n) * (isqrtAux f n) ≤ n ∧ n < (isqrtAux f n + 1) * (isqrtAux f n + 1) := by
  induction f with
  | zero =>
      intro n hn
      interval_cases n
      simp [isqrtAux]
  | succ f ih =>
      intro n hn
      match n with
      | 0 => simp [isqrtAux]
      | (m + 1) =>
        have hq : (m + 1) / 4 < 4 ^ f := by
          have h4 : (m + 1) < 4 ^ f * 4 := by
            calc (m + 1) < 4 ^ (f + 1) := hn
            _ = 4 ^ f * 4 := by ring
          omega
        obtain ⟨h1, h2⟩ := ih ((m + 1) / 4) hq
        set r := isqrtAux f ((m + 1) / 4) with hr
        have hlow : 4 * (r * r) ≤ m + 1 := by omega
        have hhigh : m + 1 < 4 * ((r + 1) * (r + 1)) := by omega
        simp only [isqrtAux, ← hr]
        split
        · constructor
          · omega
          · have : 2 * r + 1 + 1 = 2 * (r + 1) := by ring
            nlinarith
        · constructor
          · nlinarith
          · omega

theorem isqrt_spec (n : ℕ) :
    (isqrt n) * (isqrt n) ≤ n ∧ n < (isqrt n + 1) * (isqrt n + 1) := by
  have hn : n < 4 ^ n := by
    calc n < 2 ^ n := Nat.lt_two_pow n
    _ ≤ 4 ^ n := Nat.pow_le_pow_left (by norm_num) n
  exact isqrtAux_spec n n hn

/-- The integer `⌊c * Real.sqrt r + 1/2⌋`, computed exactly with the integer
square root (`r` is a nonnegative radicand throughout the development; see
floorHalfCSqrt_spec for the correctness statement on the nonnegative case). -/
def floorHalfCSqrt (c r : ℚ) : ℤ :=
  let u := r.num.toNat
  let v := r.den
  if 0 ≤ c then
    let p := c.num.toNat
    let q := c.den
    let M := p * p * u * v
    let B := q * v
    (((isqrt (4 * M) + B) / (2 * B) : ℕ) : ℤ)
  else
    let p := (-c.num).toNat;
    let q := c.den;
    let M := p * p * u * v;
    let B := q * v;
    let w := isqrt (4 * M);
    (if w * w = 4 * M ∧ B ∣ w ∧ (w / B) % 2 = 1 then (1 : ℤ) else 0) -
      (((w + B) / (2 * B) : ℕ) : ℤ)

/-- An exact real intermediate of the library: the value `c * sqrt r`
(with `c`, `r` rational, `r ≥ 0` by construction), or one of the special
values. The library only ever multiplies these and then rounds them to two
decimals, so this form is closed under everything it does before rounding. -/
inductive RNum where
  | sq (c : ℚ) (r : ℚ)
  | inf
  | negInf
  | nan
deriving DecidableEq, Repr

/-- Embed a JavaScript number as an exact intermediate (q = q * sqrt 1). -/
def rOfJNum : JNum → RNum
  | .fin q => .sq q 1
  | .inf => .inf
  | .negInf => .negInf
  | .nan => .nan

/-- `Math.sqrt` on a JavaScript number, kept exact: NaN on negative inputs
and NaN, Infinity on Infinity. -/
def rsqrt : JNum → RNum
  | .fin q => if q < 0 then .nan else .sq 1 q
  | .inf => .inf
  | .negInf => .nan
  | .nan => .nan

/-- Sign (as an integer) of the exact value `c * sqrt r` of an `RNum.sq`. -/
def rsqSign (c r : ℚ) : ℤ :=
  if c = 0 ∨ r ≤ 0 then 0 else if 0 < c then 1 else -1

/-- JavaScript multiplication on exact intermediates:
`(c₁√r₁) * (c₂√r₂) = (c₁c₂)√(r₁r₂)`, with the IEEE special-value rules
(NaN propagates, 0 * Infinity = NaN, infinities multiply by sign). -/
def rmul : RNum → RNum → RNum
  | .nan, _ => .nan
  | _, .nan => .nan
  | .sq c₁ r₁, .sq c₂ r₂ => .sq (c₁ * c₂) (r₁ * r₂)
  | .inf, .inf => .inf
  | .inf, .negInf => .negInf
  | .negInf, .inf => .negInf
  | .negInf, .negInf => .inf
  | .inf, .sq c r => if rsqSign c r = 0 then .nan else if 0 < rsqSign c r then .inf else .negInf
  | .sq c r, .inf => if rsqSign c r = 0 then .nan else if 0 < rsqSign c r then .inf else .negInf
  | .negInf, .sq c r => if rsqSign c r = 0 then .nan else if 0 < rsqSign c r then .negInf else .inf
  | .sq c r, .negInf => if rsqSign c r = 0 then .nan else if 0 < rsqSign c r then .negInf else .inf

/-- `Number(x.toFixed(2))` applied to an exact intermediate `c * sqrt r`:
exact 2-decimal rounding, computed with the integer square root. -/
def round2R : RNum → JNum
  | .sq c r => .fin (((floorHalfCSqrt (100 * c) r) : ℚ) / 100)
  | .inf => .inf
  | .negInf => .negInf
  | .nan => .nan

theorem natFloorHalfSqrt_eq (M B : ℕ) (hB : 0 < B) :
    (((isqrt (4 * M) + B) / (2 * B) : ℕ) : ℤ) =
      ⌊Real.sqrt (M : ℝ) / (B : ℝ) + 1 / 2⌋ := by
  obtain ⟨hw1, hw2⟩ := isqrt_spec (4 * M)
  set w := isqrt (4 * M) with hwdef
  set n := (w + B) / (2 * B) with hndef
  have hBR : (0 : ℝ) < (B : ℝ) := by exact_mod_cast hB
  have hMR : (0 : ℝ) ≤ (M : ℝ) := by positivity
  have hsqrt4 : Real.sqrt 4 = 2 := by
    rw [show (4 : ℝ) = 2 ^ 2 by norm_num, Real.sqrt_sq (by norm_num : (0 : ℝ) ≤ 2)]
  have hsqrt4M : Real.sqrt (4 * (M : ℝ)) = 2 * Real.sqrt (M : ℝ) := by
    rw [Real.sqrt_mul (by norm_num) (M : ℝ), hsqrt4]
  have hw_le : (w : ℝ) ≤ 2 * Real.sqrt (M : ℝ) := by
    have h1 : ((w : ℝ)) ^ 2 ≤ 4 * (M : ℝ) := by
      have hcast : ((w : ℝ)) * (w : ℝ) ≤ 4 * (M : ℝ) := by exact_mod_cast hw1
      nlinarith [hcast]
    have h2 := Real.sqrt_le_sqrt h1
    rwa [Real.sqrt_sq (by positivity), hsqrt4M] at h2
  have hw_gt : 2 * Real.sqrt (M : ℝ) < (w : ℝ) + 1 := by
    have h1 : 4 * (M : ℝ) < ((w : ℝ) + 1) ^ 2 := by
      have hcast : 4 * (M : ℝ) < ((w : ℝ) + 1) * ((w : ℝ) + 1) := by exact_mod_cast hw2
      nlinarith [hcast]
    have h2 := Real.sqrt_lt_sqrt (by positivity) h1
    rwa [Real.sqrt_sq (by positivity), hsqrt4M] at h2
  have hnl : n * (2 * B) ≤ w + B := Nat.div_mul_le_self _ _
  have hnu : w + B < (n + 1) * (2 * B) := by
    have hmod := Nat.div_add_mod (w + B) (2 * B)
    have hlt : (w + B) % (2 * B) < 2 * B := Nat.mod_lt _ (by positivity)
    calc w + B = 2 * B * n + (w + B) % (2 * B) := hmod.symm
    _ < 2 * B * n + 2 * B := Nat.add_lt_add_left hlt _
    _ = (n + 1) * (2 * B) := by ring
  have hform : Real.sqrt (M : ℝ) / (B : ℝ) + 1 / 2 =
      (2 * Real.sqrt (M : ℝ) + (B : ℝ)) / (2 * (B : ℝ)) := by
    field_simp
    ring
  symm
  rw [Int.floor_eq_iff]
  constructor
  · rw [hform, le_div_iff₀ (by positivity)]
    have hcast : ((n : ℤ) : ℝ) = (n : ℝ) := by push_cast; ring
    rw [hcast]
    have : (n : ℝ) * (2 * (B : ℝ)) ≤ (w : ℝ) + (B : ℝ) := by exact_mod_cast hnl
    linarith
  · rw [hform, div_lt_iff₀ (by positivity)]
    have : ((w : ℝ) + (B : ℝ)) + 1 ≤ ((n : ℝ) + 1) * (2 * (B : ℝ)) := by
      exact_mod_cast hnu
    push_cast
    linarith

theorem ratSqrtDecomp (p q u v : ℕ) (hq : 0 < q) (hv : 0 < v) :
    ((p : ℝ) / (q : ℝ)) * Real.sqrt ((u : ℝ) / (v : ℝ)) =
      Real.sqrt ((p * p * u * v : ℕ) : ℝ) / ((q * v : ℕ) : ℝ) := by
  have hvR : (0 : ℝ) < (v : ℝ) := by exact_mod_cast hv
  have hqR : (0 : ℝ) < (q : ℝ) := by exact_mod_cast hq
  have hsv : Real.sqrt (v : ℝ) ≠ 0 := ne_of_gt (Real.sqrt_pos.mpr hvR)
  have hsq : Real.sqrt (v : ℝ) * Real.sqrt (v : ℝ) = (v : ℝ) :=
    Real.mul_self_sqrt hvR.le
  push_cast
  rw [Real.sqrt_div (by positivity) (v : ℝ)]
  have h1 : Real.sqrt ((p : ℝ) * p * u * v) =
      (p : ℝ) * (Real.sqrt (u : ℝ) * Real.sqrt (v : ℝ)) := by
    rw [show ((p : ℝ) * p * u * v) = ((p : ℝ)) ^ 2 * ((u : ℝ) * v) by ring]
    rw [Real.sqrt_mul (by positivity), Real.sqrt_sq (by positivity),
      Real.sqrt_mul (by positivity)]
  rw [h1]
  field_simp
  linear_combination (-(p : ℝ) * Real.sqrt (u : ℝ) * (q : ℝ)) * hsq

/-- Correctness of the integer-square-root encoding of the rounding step:
on the nonnegative coefficients the library produces, floorHalfCSqrt is
exactly the floor of c * sqrt r + 1/2 over the reals. -/
theorem floorHalfCSqrt_spec (c r : ℚ) (hc : 0 ≤ c) (hr : 0 ≤ r) :
    floorHalfCSqrt c r = ⌊(c : ℝ) * Real.sqrt (r : ℝ) + 1 / 2⌋ := by
  simp only [floorHalfCSqrt, if_pos hc]
  rw [natFloorHalfSqrt_eq _ _ (by positivity)]
  congr 2
  have hcnum : ((c.num.toNat : ℤ)) = c.num := Int.toNat_of_nonneg (Rat.num_nonneg.mpr hc)
  have hrnum : ((r.num.toNat : ℤ)) = r.num := Int.toNat_of_nonneg (Rat.num_nonneg.mpr hr)
  have hcR : (c : ℝ) = (c.num.toNat : ℝ) / (c.den : ℝ) := by
    rw [Rat.cast_def]
    congr 1
    exact_mod_cast hcnum.symm
  have hrR : (r : ℝ) = (r.num.toNat : ℝ) / (r.den : ℝ) := by
    rw [Rat.cast_def]
    congr 1
    exact_mod_cast hrnum.symm
  rw [hcR, hrR, ratSqrtDecomp _ _ _ _ c.pos r.pos]

/-- The rounding round2R applies to an exact intermediate c * sqrt r is the
same 2-decimal rounding (floor of 100x + 1/2 over 100) that round2 applies
to a rational display value, taken at the real value of the intermediate. -/
theorem round2R_sq_spec (c r : ℚ) (hc : 0 ≤ c) (hr : 0 ≤ r) :
    round2R (.sq c r) =
      .fin (((⌊100 * ((c : ℝ) * Real.sqrt (r : ℝ)) + 1 / 2⌋ : ℤ) : ℚ) / 100) := by
  simp only [round2R]
  congr 2
  rw [floorHalfCSqrt_spec (100 * c) r (by positivity) hr]
  congr 1
  push_cast
  ring

/-- Multiplication of exact intermediates matches real multiplication:
the value of sq (c1*c2) (r1*r2) is the product of the values. -/
theorem rmul_sq_sq_val (c₁ r₁ c₂ r₂ : ℚ) (h₁ : 0 ≤ r₁) (h₂ : 0 ≤ r₂) :
    (((c₁ * c₂ : ℚ)) : ℝ) * Real.sqrt (((r₁ * r₂ : ℚ)) : ℝ) =
      ((c₁ : ℝ) * Real.sqrt (r₁ : ℝ)) * ((c₂ : ℝ) * Real.sqrt (r₂ : ℝ)) := by
  push_cast
  rw [Real.sqrt_mul (by exact_mod_cast h₁)]
  ring

theorem rmul_sq_sq (c₁ r₁ c₂ r₂ : ℚ) :
    rmul (.sq c₁ r₁) (.sq c₂ r₂) = .sq (c₁ * c₂) (r₁ * r₂) := rfl

/-- A JavaScript value, as far as this library inspects values: numbers,
strings, booleans, null, undefined, arrays and plain objects (an object is
its list of own properties). -/
inductive JVal where
  | num (n : JNum)
  | str (s : String)
  | bool (b : Bool)
  | null
  | undefined
  | arr (xs : List JVal)
  | obj (fs : List (String × JVal))

/-- JavaScript `typeof v === 'number'`. -/
def isNumber : JVal → Bool
  | .num _ => true
  | _ => false

/-- The numeric payload of a value; only consulted after an isNumber guard
(the NaN default is never reached by the embedded code). -/
def asNum : JVal → JNum
  | .num n => n
  | _ => .nan

/-- JavaScript truthiness: false for 0, NaN, the empty string, false, null
and undefined; true for every other value. -/
def truthy : JVal → Bool
  | .num (.fin q) => decide (q ≠ 0)
  | .num .nan => false
  | .num _ => true
  | .str s => decide (s ≠ "")
  | .bool b => b
  | .null => false
  | .undefined => false
  | .arr _ => true
  | .obj _ => true

/-- JavaScript `typeof v === 'object'` (true for null and arrays as well). -/
def isObjectType : JVal → Bool
  | .obj _ => true
  | .arr _ => true
  | .null => true
  | _ => false

/-- Property access `v[k]` as the library uses it: field lookup on objects,
undefined otherwise (the library only accesses named fields after an object
check). -/
def getField (v : JVal) (k : String) : JVal :=
  match v with
  | .obj fs => (match fs.lookup k with | some x => x | none => .undefined)
  | _ => .undefined

/-- Strict equality of a value with a string literal (`v === 's'`). -/
def jstrEq (v : JVal) (s : String) : Bool :=
  match v with
  | .str t => decide (t = s)
  | _ => false

/-- Parse an unsigned decimal numeral (digits, optionally with a decimal
point) as a rational; none when the characters are not such a numeral. -/
def parseDecimal (cs : List Char) : Option ℚ :=
  let ip := cs.takeWhile (fun c => c.isDigit)
  let rest := cs.drop ip.length
  let ipv : ℚ := (ip.foldl (fun a c => 10 * a + (c.toNat - 48)) 0 : ℕ)
  match rest with
  | [] => if ip.isEmpty then none else some ipv
  | c :: fp =>
      if c = '.' ∧ fp.all (fun d => d.isDigit) ∧ ¬(ip.isEmpty ∧ fp.isEmpty) then
        some (ipv + ((fp.foldl (fun a d => 10 * a + (d.toNat - 48)) 0 : ℕ) : ℚ) / 10 ^ fp.length)
      else none

/-- JavaScript ToNumber on a string: trimmed empty string is 0, Infinity
literals, otherwise a signed decimal numeral, else NaN. (Exponent and hex
numeral forms are omitted; the embedded code never converts such strings.) -/
def strToNum (s : String) : JNum :=
  let t := s.trim
  if t = "" then .fin 0
  else if t = "Infinity" ∨ t = "+Infinity" then .inf
  else if t = "-Infinity" then .negInf
  else
    match t.toList with
    | '-' :: cs => (match parseDecimal cs with | some q => .fin (-q) | none => .nan)
    | '+' :: cs => (match parseDecimal cs with | some q => .fin q | none => .nan)
    | cs => (match parseDecimal cs with | some q => .fin q | none => .nan)

/-- JavaScript ToNumber, on the values the insight generator can meet.
(Arrays and objects convert through their ToPrimitive string in JavaScript;
that case is mapped to NaN here and is never exercised by the library.) -/
def toNumber : JVal → JNum
  | .num n => n
  | .null => .fin 0
  | .undefined => .nan
  | .bool b => .fin (if b then 1 else 0)
  | .str s => strToNum s
  | .arr _ => .nan
  | .obj _ => .nan

/-- `v > q` for a numeric literal q, as JavaScript evaluates it (ToNumber on
v, false on NaN). -/
def jsGTq (v : JVal) (q : ℚ) : Bool := jlt (.fin q) (toNumber v)

/-- `x.toFixed(1)` as a string, on the exact model of a JavaScript number. -/
def toFixed1Str (n : JNum) : String :=
  match n with
  | .nan => "NaN"
  | .inf => "Infinity"
  | .negInf => "-Infinity"
  | .fin q =>
      let k : ℤ := ⌊10 * q + 1 / 2⌋;
      let a := k.natAbs;
      let s := toString (a / 10) ++ "." ++ toString (a % 10);
      if k < 0 then "-" ++ s else s

/-- Substitute a default for an omitted (undefined) optional argument, as a
JavaScript default parameter does. -/
def withDefault (v d : JVal) : JVal :=
  match v with
  | .undefined => d
  | x => x

/-- Default zScore 1.65 (about a 95 percent service level). -/
def defaultZScore : JVal := .num (.fin (33 / 20))

/-- Default order cost 100. -/
def defaultOrderCost : JVal := .num (.fin 100)

/-- Default holding cost 10. -/
def defaultHoldingCost : JVal := .num (.fin 10)

/-- Default days per year 250 (business days). -/
def defaultDaysPerYear : JVal := .num (.fin 250)

/-- The filter `d => typeof d === 'number' && d >= 0` applied to an array:
the valid demand entries, as numbers. -/
def validEntries (xs : List JVal) : List JNum :=
  xs.filterMap (fun d =>
    match d with
    | .num n => if jle (.fin 0) n then some n else none
    | _ => none)

/-- `reduce((acc, d) => acc + d, 0)`: sum of a list of JavaScript numbers. -/
def jsum (l : List JNum) : JNum := l.foldl jadd (.fin 0)

/-- src/calculateAverageDemand.js: simple moving average of the valid
entries; 0 for a non-array, an empty array, or no valid entries. -/
def calculateAverageDemand (historicalDemand : JVal) : JNum :=
  match historicalDemand with
  | .arr xs =>
      if xs.length == 0 then .fin 0
      else
        let validDemands := validEntries xs;
        if validDemands.length == 0 then .fin 0
        else jdiv (jsum validDemands) (.fin (validDemands.length : ℚ))
  | _ => .fin 0

/-- src/calculateDaysRemaining.js: 0 for non-numeric inputs or stock at most
0, Infinity when demand is at most 0 with positive stock, otherwise
stock / demand. -/
def calculateDaysRemaining (currentStock avgDailyDemand : JVal) : JNum :=
  if !(isNumber currentStock) || !(isNumber avgDailyDemand) then .fin 0
  else if jle (asNum currentStock) (.fin 0) then .fin 0
  else if jle (asNum avgDailyDemand) (.fin 0) then .inf
  else jdiv (asNum currentStock) (asNum avgDailyDemand)

/-- src/detectStockoutRisk.js: 'low' for invalid inputs or infinite days,
'high' below the lead time, 'medium' below 1.5 times the lead time, else
'low'. -/
def detectStockoutRisk (daysRemaining leadTime : JVal) : String :=
  if !(isNumber daysRemaining) || !(isNumber leadTime)
      || jlt (asNum leadTime) (.fin 0) || jlt (asNum daysRemaining) (.fin 0) then "low"
  else if asNum daysRemaining = JNum.inf then "low"
  else if jlt (asNum daysRemaining) (asNum leadTime) then "high"
  else if jlt (asNum daysRemaining) (jmul (asNum leadTime) (.fin (3 / 2))) then "medium"
  else "low"

/-- Result record of calculateSafetyStock. -/
structure SafetyStockResult where
  demandStdDev : JNum
  safetyStock : JNum
deriving DecidableEq, Repr

/-- `reduce((acc, d) => acc + Math.pow(d - mean, 2), 0)`: sum of squared
deviations from the mean. -/
def sumSqDiff (l : List JNum) (mean : JNum) : JNum :=
  l.foldl (fun acc d => jadd acc (jmul (jsub d mean) (jsub d mean))) (.fin 0)

/-- src/calculateSafetyStock.js (the 4-parameter version with the optional
precomputed average): sample standard deviation of the valid entries and
safety stock zScore * stdDev * sqrt(leadTime), both rounded to 2 decimals;
zero defaults on invalid input. The optional average is passed as a JVal,
undefined when omitted. -/
def calculateSafetyStock (historicalDemand leadTime zScore avgDemand : JVal) :
    SafetyStockResult :=
  let z := withDefault zScore defaultZScore;
  match historicalDemand with
  | .arr xs =>
      if xs.length == 0 || !(isNumber leadTime) || jlt (asNum leadTime) (.fin 0)
          || !(isNumber z) || jlt (asNum z) (.fin 0) then ⟨.fin 0, .fin 0⟩
      else
        let validDemands := validEntries xs;
        let n := validDemands.length;
        if n == 0 then ⟨.fin 0, .fin 0⟩
        else
          let mean :=
            if isNumber avgDemand && jle (.fin 0) (asNum avgDemand) then asNum avgDemand
            else jdiv (jsum validDemands) (.fin (n : ℚ));
          let variance :=
            if 1 < n then jdiv (sumSqDiff validDemands mean) (.fin ((n - 1 : ℕ) : ℚ))
            else .fin 0;
          let demandStdDev := rsqrt variance;
          let safetyStock :=
            rmul (rmul (rOfJNum (asNum z)) demandStdDev) (rsqrt (asNum leadTime));
          ⟨round2R demandStdDev, round2R safetyStock⟩
  | _ => ⟨.fin 0, .fin 0⟩

/-- Result record of calculateReorderPoint. -/
structure ReorderPointResult where
  avgDailyDemand : JNum
  safetyStock : JNum
  reorderPoint : JNum
deriving DecidableEq, Repr

/-- src/calculateReorderPoint.js: average demand times lead time plus safety
stock (reusing the other two utilities, the average passed through); zero
defaults on invalid input. -/
def calculateReorderPoint (historicalDemand leadTime zScore : JVal) :
    ReorderPointResult :=
  let z := withDefault zScore defaultZScore;
  match historicalDemand with
  | .arr xs =>
      if xs.length == 0 || !(isNumber leadTime) || jlt (asNum leadTime) (.fin 0)
          || !(isNumber z) || jlt (asNum z) (.fin 0) then ⟨.fin 0, .fin 0, .fin 0⟩
      else
        let avgDailyDemand := calculateAverageDemand (.arr xs);
        let s := calculateSafetyStock (.arr xs) leadTime z (.num avgDailyDemand);
        let reorderPoint := jadd (jmul avgDailyDemand (asNum leadTime)) s.safetyStock;
        ⟨jround2 avgDailyDemand, s.safetyStock, jround2 reorderPoint⟩
  | _ => ⟨.fin 0, .fin 0, .fin 0⟩

/-- Result record of calculateEOQ. -/
structure EOQResult where
  annualDemand : JNum
  eoq : JNum
deriving DecidableEq, Repr

/-- src/calculateEOQ.js: annual demand avg * daysPerYear and economic order
quantity sqrt(2 * annualDemand * orderCost / holdingCost), both rounded to 2
decimals; zero defaults on invalid input or zero average demand. -/
def calculateEOQ (historicalDemand orderCost holdingCost daysPerYear : JVal) :
    EOQResult :=
  let oc := withDefault orderCost defaultOrderCost;
  let hc := withDefault holdingCost defaultHoldingCost;
  let dpy := withDefault daysPerYear defaultDaysPerYear;
  match historicalDemand with
  | .arr xs =>
      if xs.length == 0 || !(isNumber oc) || jle (asNum oc) (.fin 0)
          || !(isNumber hc) || jle (asNum hc) (.fin 0)
          || !(isNumber dpy) || jle (asNum dpy) (.fin 0) then ⟨.fin 0, .fin 0⟩
      else
        let avgDailyDemand := calculateAverageDemand (.arr xs);
        if avgDailyDemand = JNum.fin 0 then ⟨.fin 0, .fin 0⟩
        else
          let annualDemand := jmul avgDailyDemand (asNum dpy);
          let eoq := round2R (rsqrt
            (jdiv (jmul (jmul (.fin 2) annualDemand) (asNum oc)) (asNum hc)));
          ⟨jround2 annualDemand, eoq⟩
  | _ => ⟨.fin 0, .fin 0⟩

/-- The aggregate object returned by calculateInventoryForecast. The
daysRemaining field is a JVal because it is either a number or the string
sentinel 'Infinite'. -/
structure ForecastResult where
  avgDailyDemand : JNum
  daysRemaining : JVal
  riskLevel : String
  recommendation : String
  demandStdDev : JNum
  safetyStock : JNum
  reorderPoint : JNum
  eoq : JNum

/-- src/index.js calculateInventoryForecast: composes the six calculators,
threading the computed average demand into the safety-stock call, rounding
the display fields to 2 decimals and replacing an infinite daysRemaining by
the string sentinel. -/
def calculateInventoryForecast
    (historicalDemand currentStock leadTime zScore orderCost holdingCost : JVal) :
    ForecastResult :=
  let z := withDefault zScore defaultZScore;
  let oc := withDefault orderCost defaultOrderCost;
  let hc := withDefault holdingCost defaultHoldingCost;
  let avgDailyDemand := calculateAverageDemand historicalDemand;
  let daysRemaining := calculateDaysRemaining currentStock (.num avgDailyDemand);
  let riskLevel := detectStockoutRisk (.num daysRemaining) leadTime;
  let s := calculateSafetyStock historicalDemand leadTime z (.num avgDailyDemand);
  let r := calculateReorderPoint historicalDemand leadTime z;
  let e := calculateEOQ historicalDemand oc hc .undefined;
  { avgDailyDemand := jround2 avgDailyDemand
    daysRemaining :=
      if daysRemaining = JNum.inf then .str "Infinite" else .num (jround2 daysRemaining)
    riskLevel := riskLevel
    recommendation :=
      if riskLevel = "high" then "Reorder immediately" else "Monitor stock levels"
    demandStdDev := s.demandStdDev
    safetyStock := s.safetyStock
    reorderPoint := r.reorderPoint
    eoq := e.eoq }

/-- A human-readable signal string from the insights layer. Fixed sentences
from the source are literals; a sentence that interpolates a numeric value
keeps that value symbolically (the exact JavaScript rendering of a number
to text is representation-dependent and is not modelled). -/
inductive SignalText where
  | lit (s : String)
  | demandAround (avg : JVal)
  | bufferProtects (days : JVal)
  | reorderAt (rp : JVal)
  | eoqOptimizes (q : JVal)

/-- The record returned by generateInsights. -/
structure Insights where
  status : String
  summary : String
  demandSignal : SignalText
  variabilitySignal : SignalText
  bufferSignal : SignalText
  reorderSignal : SignalText
  costSignal : SignalText
  recommendation : String

/-- src/insights/generateInsights.js: the fixed insufficient-data bundle
when the input is falsy, not of object type, or has a falsy avgDailyDemand
field; otherwise signals derived from the forecast fields and a
status/summary/recommendation driven by the risk level. -/
def generateInsights (forecastData : JVal) : Insights :=
  if !(truthy forecastData) || !(isObjectType forecastData)
      || !(truthy (getField forecastData "avgDailyDemand")) then
    { status := "unknown"
      summary := "Insufficient data for insights."
      demandSignal := .lit "Demand data unavailable."
      variabilitySignal := .lit "Variability unknown."
      bufferSignal := .lit "No buffer info."
      reorderSignal := .lit "Reorder status unknown."
      costSignal := .lit "Cost optimization unknown."
      recommendation := "Gather more data." }
  else
    let avgDailyDemand := getField forecastData "avgDailyDemand";
    let demandStdDev := getField forecastData "demandStdDev";
    let safetyStock := getField forecastData "safetyStock";
    let reorderPoint := getField forecastData "reorderPoint";
    let eoq := getField forecastData "eoq";
    let riskLevel := getField forecastData "riskLevel";
    let demandSignal := SignalText.demandAround avgDailyDemand;
    let variabilitySignal :=
      if jsGTq demandStdDev 3 then
        SignalText.lit "High variability - monitor closely for stockouts."
      else if jsGTq demandStdDev 1 then SignalText.lit "Moderate variability (plan buffer)."
      else SignalText.lit "Low variability (stable demand).";
    let bufferDays : JVal :=
      if jsGTq avgDailyDemand 0 then
        .str (toFixed1Str (jdiv (toNumber safetyStock) (toNumber avgDailyDemand)))
      else .num (.fin 0);
    let bufferSignal := SignalText.bufferProtects bufferDays;
    let reorderSignal := SignalText.reorderAt reorderPoint;
    let costSignal := SignalText.eoqOptimizes eoq;
    if jstrEq riskLevel "high" then
      { status := "critical"
        summary := "High stockout risk - act now to avoid shortages."
        demandSignal := demandSignal
        variabilitySignal := variabilitySignal
        bufferSignal := bufferSignal
        reorderSignal := reorderSignal
        costSignal := costSignal
        recommendation := "Reorder immediately and review suppliers." }
    else if jstrEq riskLevel "medium" then
      { status := "caution"
        summary := "Moderate risk - proactive monitoring advised."
        demandSignal := demandSignal
        variabilitySignal := variabilitySignal
        bufferSignal := bufferSignal
        reorderSignal := reorderSignal
        costSignal := costSignal
        recommendation := "Plan reorder soon." }
    else
      { status := "stable"
        summary := "Inventory levels are healthy."
        demandSignal := demandSignal
        variabilitySignal := variabilitySignal
        bufferSignal := bufferSignal
        reorderSignal := reorderSignal
        costSignal := costSignal
        recommendation := "Monitor stock levels." }

/-- A ForecastResult as the JavaScript object value it is, for feeding the
insight generator. -/
def ForecastResult.toJVal (fc : ForecastResult) : JVal :=
  .obj [("avgDailyDemand", .num fc.avgDailyDemand),
        ("daysRemaining", fc.daysRemaining),
        ("riskLevel", .str fc.riskLevel),
        ("recommendation", .str fc.recommendation),
        ("demandStdDev", .num fc.demandStdDev),
        ("safetyStock", .num fc.safetyStock),
        ("reorderPoint", .num fc.reorderPoint),
        ("eoq", .num fc.eoq)]

/-- The fixed bundle generateInsights returns when its input is unusable. -/
def insufficientDataBundle : Insights :=
  { status := "unknown"
    summary := "Insufficient data for insights."
    demandSignal := .lit "Demand data unavailable."
    variabilitySignal := .lit "Variability unknown."
    bufferSignal := .lit "No buffer info."
    reorderSignal := .lit "Reorder status unknown."
    costSignal := .lit "Cost optimization unknown."
    recommendation := "Gather more data." }

theorem jle_zero_jadd {a b : JNum} (ha : jle (.fin 0) a = true)
    (hb : jle (.fin 0) b = true) : jle (.fin 0) (jadd a b) = true := by
  cases a <;> cases b <;>
    simp only [jle, jadd, decide_eq_true_eq] at * <;> try trivial
  linarith

theorem jle_zero_foldl (l : List JNum) : ∀ acc, jle (.fin 0) acc = true →
    (∀ x ∈ l, jle (.fin 0) x = true) → jle (.fin 0) (l.foldl jadd acc) = true := by
  induction l with
  | nil => intro acc ha _; simpa using ha
  | cons x xs ih =>
      intro acc ha hall
      simp only [List.foldl_cons]
      exact ih _ (jle_zero_jadd ha (hall x (by simp)))
        (fun y hy => hall y (by simp [hy]))

theorem validEntries_nonneg (xs : List JVal) :
    ∀ n ∈ validEntries xs, jle (.fin 0) n = true := by
  intro n hn
  simp only [validEntries, List.mem_filterMap] at hn
  obtain ⟨d, _, hd⟩ := hn
  cases d <;> simp at hd
  case num m =>
    obtain ⟨h1, h2⟩ := hd
    exact h2 ▸ h1

theorem jle_zero_jsum (l : List JNum) (h : ∀ x ∈ l, jle (.fin 0) x = true) :
    jle (.fin 0) (jsum l) = true :=
  jle_zero_foldl l (.fin 0) (by norm_num [jle]) h

theorem jle_zero_avg (h : JVal) : jle (.fin 0) (calculateAverageDemand h) = true := by
  cases h
  case arr xs =>
    simp only [calculateAverageDemand]
    by_cases h1 : (xs.length == 0) = true
    · norm_num [h1, jle]
    · have h1' := Bool.not_eq_true _ |>.mp h1
      by_cases h2 : ((validEntries xs).length == 0) = true
      · norm_num [h1', h2, jle]
      · have h2' := Bool.not_eq_true _ |>.mp h2
        have hs := jle_zero_jsum (validEntries xs) (validEntries_nonneg xs)
        have hlen0 : (validEntries xs).length ≠ 0 := by
          intro hc; rw [hc] at h2'; simp at h2'
        have hlen : ((validEntries xs).length : ℚ) ≠ 0 := by exact_mod_cast hlen0
        have hlenpos : (0 : ℚ) ≤ ((validEntries xs).length : ℚ) := by positivity
        simp only [h1', h2', Bool.false_eq_true, if_false]
        cases hsum : jsum (validEntries xs) <;> rw [hsum] at hs
        · rename_i q
          simp only [jle, decide_eq_true_eq] at hs
          simp only [jdiv, hlen, if_false, jle, decide_eq_true_eq]
          exact div_nonneg hs hlenpos
        · simp [jdiv, hlenpos, jle]
        · simp [jle] at hs
        · simp [jle] at hs
  all_goals norm_num [calculateAverageDemand, jle]

theorem avg_eq_div (xs : List JVal) (h1 : (xs.length == 0) = false)
    (h2 : ((validEntries xs).length == 0) = false) :
    calculateAverageDemand (.arr xs) =
      jdiv (jsum (validEntries xs)) (.fin ((validEntries xs).length : ℚ)) := by
  simp [calculateAverageDemand, h1, h2]

theorem withDefault_withDefault (v d : JVal) (hd : d ≠ JVal.undefined) :
    withDefault (withDefault v d) d = withDefault v d := by
  cases v <;> cases d <;> simp_all [withDefault]

/-- Reuse consistency of the precomputed-average parameter, with no
restriction on the other arguments: passing the average computed by
calculateAverageDemand gives exactly the same result as omitting it. -/
theorem safetyStock_reuse_avg (historicalDemand leadTime zScore : JVal) :
    calculateSafetyStock historicalDemand leadTime zScore
        (.num (calculateAverageDemand historicalDemand)) =
      calculateSafetyStock historicalDemand leadTime zScore .undefined := by
  cases historicalDemand <;> try rfl
  case arr xs =>
    by_cases hg : (xs.length == 0 || !(isNumber leadTime)
        || jlt (asNum leadTime) (.fin 0)
        || !(isNumber (withDefault zScore defaultZScore))
        || jlt (asNum (withDefault zScore defaultZScore)) (.fin 0)) = true
    · simp [calculateSafetyStock, hg]
    · have hg' := Bool.not_eq_true _ |>.mp hg
      by_cases hn : ((validEntries xs).length == 0) = true
      · simp [calculateSafetyStock, hg', hn]
      · have hn' := Bool.not_eq_true _ |>.mp hn
        have h1 : (xs.length == 0) = false := by
          rcases Bool.eq_false_or_eq_true (xs.length == 0) with hh | hh
          · rw [hh] at hg'; simp at hg'
          · exact hh
        have havg := jle_zero_avg (.arr xs)
        have havgd : jle (.fin 0)
            (jdiv (jsum (validEntries xs)) (.fin ((validEntries xs).length : ℚ))) = true := by
          rw [← avg_eq_div xs h1 hn']; exact havg
        simp [calculateSafetyStock, hg', hn', isNumber, asNum, havg, havgd,
          avg_eq_div xs h1 hn']

theorem calculateSafetyStock_default_z (h L z a : JVal) :
    calculateSafetyStock h L (withDefault z defaultZScore) a =
      calculateSafetyStock h L z a := by
  simp only [calculateSafetyStock,
    withDefault_withDefault z defaultZScore (by simp [defaultZScore])]

theorem calculateReorderPoint_default_z (h L z : JVal) :
    calculateReorderPoint h L (withDefault z defaultZScore) =
      calculateReorderPoint h L z := by
  simp only [calculateReorderPoint,
    withDefault_withDefault z defaultZScore (by simp [defaultZScore])]

theorem calculateEOQ_default_costs (h oc hc dpy : JVal) :
    calculateEOQ h (withDefault oc defaultOrderCost) (withDefault hc defaultHoldingCost)
        dpy = calculateEOQ h oc hc dpy := by
  simp only [calculateEOQ,
    withDefault_withDefault oc defaultOrderCost (by simp [defaultOrderCost]),
    withDefault_withDefault hc defaultHoldingCost (by simp [defaultHoldingCost])]

/-- Claim C1: every field of the aggregate returned by
calculateInventoryForecast equals what the dedicated calculator produces
from the same inputs, up to the documented 2-decimal rounding (and the
infinite sentinel for daysRemaining); riskLevel is computed from the
unrounded daysRemaining, demandStdDev/safetyStock from the three-argument
calculateSafetyStock call (average omitted), reorderPoint and eoq from the
corresponding fields of the dedicated calculators. -/
theorem claim_C1_forecast_refines_calculators
    (historicalDemand currentStock leadTime zScore orderCost holdingCost : JVal) :
    (calculateInventoryForecast historicalDemand currentStock leadTime zScore
        orderCost holdingCost).avgDailyDemand =
      jround2 (calculateAverageDemand historicalDemand)
  ∧ (calculateInventoryForecast historicalDemand currentStock leadTime zScore
        orderCost holdingCost).daysRemaining =
      (if calculateDaysRemaining currentStock (.num (calculateAverageDemand historicalDemand)) =
          JNum.inf then JVal.str "Infinite"
       else .num (jround2 (calculateDaysRemaining currentStock
          (.num (calculateAverageDemand historicalDemand)))))
  ∧ (calculateInventoryForecast historicalDemand currentStock leadTime zScore
        orderCost holdingCost).riskLevel =
      detectStockoutRisk
        (.num (calculateDaysRemaining currentStock
          (.num (calculateAverageDemand historicalDemand)))) leadTime
  ∧ (calculateInventoryForecast historicalDemand currentStock leadTime zScore
        orderCost holdingCost).demandStdDev =
      (calculateSafetyStock historicalDemand leadTime zScore .undefined).demandStdDev
  ∧ (calculateInventoryForecast historicalDemand currentStock leadTime zScore
        orderCost holdingCost).safetyStock =
      (calculateSafetyStock historicalDemand leadTime zScore .undefined).safetyStock
  ∧ (calculateInventoryForecast historicalDemand currentStock leadTime zScore
        orderCost holdingCost).reorderPoint =
      (calculateReorderPoint historicalDemand leadTime zScore).reorderPoint
  ∧ (calculateInventoryForecast historicalDemand currentStock leadTime zScore
        orderCost holdingCost).eoq =
      (calculateEOQ historicalDemand orderCost holdingCost .undefined).eoq := by
  refine ⟨rfl, rfl, rfl, ?_, ?_, ?_, ?_⟩
  · show (calculateSafetyStock historicalDemand leadTime
        (withDefault zScore defaultZScore)
        (.num (calculateAverageDemand historicalDemand))).demandStdDev = _
    rw [calculateSafetyStock_default_z, safetyStock_reuse_avg]
  · show (calculateSafetyStock historicalDemand leadTime
        (withDefault zScore defaultZScore)
        (.num (calculateAverageDemand historicalDemand))).safetyStock = _
    rw [calculateSafetyStock_default_z, safetyStock_reuse_avg]
  · show (calculateReorderPoint historicalDemand leadTime
        (withDefault zScore defaultZScore)).reorderPoint = _
    rw [calculateReorderPoint_default_z]
  · show (calculateEOQ historicalDemand (withDefault orderCost defaultOrderCost)
        (withDefault holdingCost defaultHoldingCost) .undefined).eoq = _
    rw [calculateEOQ_default_costs]

/-- Claim C3: for every history and numeric nonnegative leadTime and zScore,
calculateSafetyStock with the precomputed average
calculateAverageDemand(history) returns exactly the same record as with the
average omitted. -/
theorem claim_C3_reuse_consistency (historicalDemand : JVal) (L z : JNum)
    (hL : jle (.fin 0) L = true) (hz : jle (.fin 0) z = true) :
    calculateSafetyStock historicalDemand (.num L) (.num z)
        (.num (calculateAverageDemand historicalDemand)) =
      calculateSafetyStock historicalDemand (.num L) (.num z) .undefined :=
  safetyStock_reuse_avg historicalDemand (.num L) (.num z)

/-- Witness for C3 at the sample data of the repository's tests. -/
theorem claim_C3_reuse_consistency_witness :
    jle (.fin 0) (JNum.fin 5) = true ∧ jle (.fin 0) (JNum.fin (33 / 20)) = true ∧
    calculateSafetyStock
        (.arr [.num (.fin 10), .num (.fin 12), .num (.fin 15), .num (.fin 9),
               .num (.fin 11), .num (.fin 13), .num (.fin 10)])
        (.num (.fin 5)) (.num (.fin (33 / 20)))
        (.num (calculateAverageDemand
          (.arr [.num (.fin 10), .num (.fin 12), .num (.fin 15), .num (.fin 9),
                 .num (.fin 11), .num (.fin 13), .num (.fin 10)]))) =
      calculateSafetyStock
        (.arr [.num (.fin 10), .num (.fin 12), .num (.fin 15), .num (.fin 9),
               .num (.fin 11), .num (.fin 13), .num (.fin 10)])
        (.num (.fin 5)) (.num (.fin (33 / 20))) .undefined := by
  refine ⟨by norm_num [jle], by norm_num [jle], ?_⟩
  exact claim_C3_reuse_consistency _ _ _ (by norm_num [jle]) (by norm_num [jle])

theorem jlt_zero_false_of_nonneg {x : JNum} (h : jle (.fin 0) x = true) :
    jlt x (.fin 0) = false := by
  cases x <;> simp_all [jle, jlt]

/-- Claim C2: the stockout-risk classification. For finite nonnegative days
and positive lead time: high below the lead time, medium below 1.5 times the
lead time, low otherwise; low for infinite days with nonnegative lead time;
low for non-numeric inputs, negative lead time or negative days (the guard is
checked first, then the infinity check, then the thresholds). -/
theorem claim_C2_risk_classification :
    (∀ d L : ℚ, 0 ≤ d → 0 < L →
      detectStockoutRisk (.num (.fin d)) (.num (.fin L)) =
        (if d < L then "high" else if d < 3 / 2 * L then "medium" else "low"))
  ∧ (∀ L : JNum, jle (.fin 0) L = true →
      detectStockoutRisk (.num .inf) (.num L) = "low")
  ∧ (∀ v w : JVal, isNumber v = false ∨ isNumber w = false →
      detectStockoutRisk v w = "low")
  ∧ (∀ d L : JNum, jlt L (.fin 0) = true → detectStockoutRisk (.num d) (.num L) = "low")
  ∧ (∀ d L : JNum, jlt d (.fin 0) = true → detectStockoutRisk (.num d) (.num L) = "low") := by
  refine ⟨?_, ?_, ?_, ?_, ?_⟩
  · intro d L hd hL
    simp [detectStockoutRisk, isNumber, asNum, jlt, jmul,
      decide_eq_true_eq, mul_comm]
    intro h
    rcases h with h | h <;> linarith
  · intro L hL0
    have hL' : jlt L (.fin 0) = false := jlt_zero_false_of_nonneg hL0
    simp [detectStockoutRisk, isNumber, asNum, hL', jlt]
  · intro v w h
    rcases h with h | h <;> simp [detectStockoutRisk, h]
  · intro d L h
    simp [detectStockoutRisk, isNumber, asNum, h]
  · intro d L h
    simp [detectStockoutRisk, isNumber, asNum, h]

/-- Witness for C2: one concrete input through each classification case. -/
theorem claim_C2_risk_classification_witness :
    detectStockoutRisk (.num (.fin 3)) (.num (.fin 5)) = "high"
  ∧ detectStockoutRisk (.num (.fin 6)) (.num (.fin 5)) = "medium"
  ∧ detectStockoutRisk (.num (.fin 10)) (.num (.fin 5)) = "low"
  ∧ detectStockoutRisk (.num .inf) (.num (.fin 5)) = "low"
  ∧ detectStockoutRisk (.str "invalid") (.num (.fin 5)) = "low"
  ∧ detectStockoutRisk (.num (.fin 10)) (.num (.fin (-1))) = "low"
  ∧ detectStockoutRisk (.num (.fin (-5))) (.num (.fin 5)) = "low" := by
  refine ⟨?_, ?_, ?_, ?_, ?_, ?_, ?_⟩
  · exact (claim_C2_risk_classification.1 3 5 (by norm_num) (by norm_num)).trans
      (by norm_num)
  · exact (claim_C2_risk_classification.1 6 5 (by norm_num) (by norm_num)).trans
      (by norm_num)
  · exact (claim_C2_risk_classification.1 10 5 (by norm_num) (by norm_num)).trans
      (by norm_num)
  · exact claim_C2_risk_classification.2.1 (.fin 5) (by norm_num [jle])
  · exact claim_C2_risk_classification.2.2.1 (.str "invalid") (.num (.fin 5))
      (Or.inl rfl)
  · exact claim_C2_risk_classification.2.2.2.1 (.fin 10) (.fin (-1))
      (by norm_num [jlt])
  · exact claim_C2_risk_classification.2.2.2.2 (.fin (-5)) (.fin 5)
      (by norm_num [jlt])

/-- A history input covered by the safe-default property: not an array, an
empty array, or an array with no valid entry. -/
def invalidHistory : JVal → Bool
  | .arr xs => xs.length == 0 || (validEntries xs).length == 0
  | _ => true

/-- The one exception to the zero default of calculateReorderPoint: a
nonempty array with no valid entry together with an Infinity or NaN lead
time (both pass the `typeof leadTime !== 'number' || leadTime < 0` guard)
and a numeric nonnegative (or defaulted) zScore. There
`0 * leadTime + 0` is NaN. -/
def reorderNaNCase (historicalDemand leadTime zScore : JVal) : Bool :=
  match historicalDemand, leadTime with
  | .arr xs, .num lt =>
      (lt == JNum.inf || lt == JNum.nan) && !(xs.length == 0)
        && isNumber (withDefault zScore defaultZScore)
        && !(jlt (asNum (withDefault zScore defaultZScore)) (.fin 0))
  | _, _ => false

theorem round2_zero : round2 0 = 0 := by norm_num [round2]

theorem avg_zero_of_invalid (h : JVal) (hinv : invalidHistory h = true) :
    calculateAverageDemand h = .fin 0 := by
  cases h <;> try rfl
  case arr xs =>
    simp only [invalidHistory] at hinv
    rcases (Bool.or_eq_true _ _).mp hinv with he | hv
    · simp [calculateAverageDemand, he]
    · by_cases he2 : (xs.length == 0) = true
      · simp [calculateAverageDemand, he2]
      · have he2' := Bool.not_eq_true _ |>.mp he2
        simp [calculateAverageDemand, he2', hv]

theorem safety_zero_of_invalid (h : JVal) (hinv : invalidHistory h = true)
    (lt zs ad : JVal) : calculateSafetyStock h lt zs ad = ⟨.fin 0, .fin 0⟩ := by
  cases h <;> try rfl
  case arr xs =>
    simp only [invalidHistory] at hinv
    by_cases hg : (xs.length == 0 || !(isNumber lt) || jlt (asNum lt) (.fin 0)
        || !(isNumber (withDefault zs defaultZScore))
        || jlt (asNum (withDefault zs defaultZScore)) (.fin 0)) = true
    · simp [calculateSafetyStock, hg]
    · have hg' := Bool.not_eq_true _ |>.mp hg
      have hx : (xs.length == 0) = false := by
        rcases Bool.eq_false_or_eq_true (xs.length == 0) with hh | hh
        · rw [hh] at hg'; simp at hg'
        · exact hh
      have hv : ((validEntries xs).length == 0) = true := by
        rcases (Bool.or_eq_true _ _).mp hinv with he | he
        · rw [he] at hx; simp at hx
        · exact he
      simp [calculateSafetyStock, hg', hv]

theorem eoq_zero_of_invalid (h : JVal) (hinv : invalidHistory h = true)
    (oc hc dpy : JVal) : calculateEOQ h oc hc dpy = ⟨.fin 0, .fin 0⟩ := by
  cases h <;> try rfl
  case arr xs =>
    by_cases hg : (xs.length == 0 || !(isNumber (withDefault oc defaultOrderCost))
        || jle (asNum (withDefault oc defaultOrderCost)) (.fin 0)
        || !(isNumber (withDefault hc defaultHoldingCost))
        || jle (asNum (withDefault hc defaultHoldingCost)) (.fin 0)
        || !(isNumber (withDefault dpy defaultDaysPerYear))
        || jle (asNum (withDefault dpy defaultDaysPerYear)) (.fin 0)) = true
    · simp [calculateEOQ, hg]
    · have hg' := Bool.not_eq_true _ |>.mp hg
      simp [calculateEOQ, hg', avg_zero_of_invalid (.arr xs) hinv]

theorem reorder_of_invalid (h : JVal) (hinv : invalidHistory h = true)
    (lt zs : JVal) :
    calculateReorderPoint h lt zs =
      (if reorderNaNCase h lt zs then ⟨.fin 0, .fin 0, JNum.nan⟩
       else ⟨.fin 0, .fin 0, .fin 0⟩) := by
  cases h <;> try (simp [reorderNaNCase]; rfl)
  case arr xs =>
    by_cases hg : (xs.length == 0 || !(isNumber lt) || jlt (asNum lt) (.fin 0)
        || !(isNumber (withDefault zs defaultZScore))
        || jlt (asNum (withDefault zs defaultZScore)) (.fin 0)) = true
    · have hrn : reorderNaNCase (.arr xs) lt zs = false := by
        rcases (by simpa only [Bool.or_eq_true] using hg :
            ((((xs.length == 0) = true ∨ (!(isNumber lt)) = true)
            ∨ jlt (asNum lt) (.fin 0) = true)
            ∨ (!(isNumber (withDefault zs defaultZScore))) = true)
            ∨ jlt (asNum (withDefault zs defaultZScore)) (.fin 0) = true)
          with (((h1 | h2) | h3) | h4) | h5
        · cases lt <;> simp [reorderNaNCase, h1]
        · cases lt <;> simp_all [reorderNaNCase, isNumber]
        · cases lt <;> try simp_all [reorderNaNCase, asNum, jlt]
          case num n => cases n <;> simp_all [reorderNaNCase, asNum, jlt]
        · cases lt <;> simp_all [reorderNaNCase, Bool.not_eq_true]
        · cases lt <;> simp_all [reorderNaNCase, Bool.not_eq_true]
      simp [calculateReorderPoint, hg, hrn]
    · have hg' := Bool.not_eq_true _ |>.mp hg
      have hx : (xs.length == 0) = false := by
        rcases Bool.eq_false_or_eq_true (xs.length == 0) with hh | hh
        · rw [hh] at hg'; simp at hg'
        · exact hh
      have hparts := hg'
      simp only [Bool.or_eq_false_iff, Bool.not_eq_false] at hparts
      obtain ⟨⟨⟨⟨hx0, hnum⟩, hjlt⟩, hznum⟩, hzjlt⟩ := hparts
      have havg := avg_zero_of_invalid (.arr xs) hinv
      have hsafe := safety_zero_of_invalid (.arr xs) hinv lt
        (withDefault zs defaultZScore) (.num (calculateAverageDemand (.arr xs)))
      cases lt <;> simp_all [isNumber]
      rename_i n
      have hx0b : (xs.length == 0) = false := by
        simpa [List.length_eq_zero] using hx0
      cases n <;>
          norm_num [calculateReorderPoint, havg, hsafe, reorderNaNCase,
            isNumber, hx0b, jmul, jadd, jround2, round2, asNum, jlt] <;>
          simp_all [jlt, asNum, reorderNaNCase, isNumber, hx0b]

/-- Claim C4 (amended): for a history that is not an array, an empty array,
or an array with no valid entry, and any other arguments,
calculateAverageDemand returns 0, calculateSafetyStock and calculateEOQ
return their zeroed records, and calculateReorderPoint returns the zeroed
record except in the reorderNaNCase (nonempty all-invalid array with
Infinity or NaN lead time and valid zScore), where its reorderPoint field is
NaN. None of them can throw: each is a total function. -/
theorem claim_C4_safe_default_totality (historicalDemand : JVal)
    (hinv : invalidHistory historicalDemand = true)
    (leadTime zScore orderCost holdingCost daysPerYear avgDemand : JVal) :
    calculateAverageDemand historicalDemand = .fin 0
  ∧ calculateSafetyStock historicalDemand leadTime zScore avgDemand = ⟨.fin 0, .fin 0⟩
  ∧ calculateEOQ historicalDemand orderCost holdingCost daysPerYear = ⟨.fin 0, .fin 0⟩
  ∧ calculateReorderPoint historicalDemand leadTime zScore =
      (if reorderNaNCase historicalDemand leadTime zScore then
        ⟨.fin 0, .fin 0, JNum.nan⟩
       else ⟨.fin 0, .fin 0, .fin 0⟩) :=
  ⟨avg_zero_of_invalid _ hinv, safety_zero_of_invalid _ hinv _ _ _,
   eoq_zero_of_invalid _ hinv _ _ _, reorder_of_invalid _ hinv _ _⟩

/-- Counterexample to C4 as stated: the all-invalid history [-1] with lead
time Infinity (an argument C4 quantifies over) makes calculateReorderPoint
return reorderPoint NaN, not 0. -/
theorem claim_C4_counterexample :
    invalidHistory (.arr [.num (.fin (-1))]) = true
  ∧ calculateReorderPoint (.arr [.num (.fin (-1))]) (.num JNum.inf) .undefined =
      ⟨.fin 0, .fin 0, JNum.nan⟩
  ∧ calculateReorderPoint (.arr [.num (.fin (-1))]) (.num JNum.inf) .undefined ≠
      ⟨.fin 0, .fin 0, .fin 0⟩ := by
  have h2 : calculateReorderPoint (.arr [.num (.fin (-1))]) (.num JNum.inf) .undefined =
      ⟨.fin 0, .fin 0, JNum.nan⟩ := by
    norm_num [calculateReorderPoint, calculateSafetyStock, calculateAverageDemand,
      withDefault, defaultZScore, isNumber, asNum, jlt, jle, validEntries, jsum,
      jadd, jmul, jround2, round2]
  refine ⟨by norm_num [invalidHistory, validEntries, jle], h2, ?_⟩
  rw [h2]
  simp

/-- Witness for C4 at a non-array history. -/
theorem claim_C4_safe_default_totality_witness :
    calculateAverageDemand (.str "invalid") = .fin 0
  ∧ calculateSafetyStock (.str "invalid") (.num (.fin 5)) .undefined .undefined =
      ⟨.fin 0, .fin 0⟩
  ∧ calculateEOQ (.str "invalid") .undefined .undefined .undefined = ⟨.fin 0, .fin 0⟩
  ∧ calculateReorderPoint (.str "invalid") (.num (.fin 5)) .undefined =
      (if reorderNaNCase (.str "invalid") (.num (.fin 5)) .undefined then
        ⟨.fin 0, .fin 0, JNum.nan⟩
       else ⟨.fin 0, .fin 0, .fin 0⟩) :=
  claim_C4_safe_default_totality (.str "invalid") rfl (.num (.fin 5)) .undefined .undefined
    .undefined .undefined .undefined

theorem jdiv_range (s a : JNum) (hs : jle s (.fin 0) = false)
    (ha : jle a (.fin 0) = false) :
    jdiv s a = JNum.nan ∨ jle (.fin 0) (jdiv s a) = true := by
  cases s <;> cases a <;>
    simp only [jle, decide_eq_false_iff_not] at hs ha <;>
    first
      | (left; rfl)
      | (exact absurd hs (by decide))
      | (exact absurd ha (by decide))
      | skip
  · rename_i qs qa
    right
    have hqa : qa ≠ 0 := fun hz => ha (le_of_eq hz)
    have hq1 : 0 < qs := lt_of_not_le hs
    have hq2 : 0 < qa := lt_of_not_le ha
    norm_num [jdiv, hqa, jle]
    exact div_nonneg hq1.le hq2.le
  · right; norm_num [jdiv, jle]
  · rename_i qa
    right
    have h2 : (0 : ℚ) ≤ qa := le_of_lt (lt_of_not_le ha)
    norm_num [jdiv, h2, jle]

theorem daysRemaining_range (v w : JVal) :
    calculateDaysRemaining v w = JNum.nan ∨
      jle (.fin 0) (calculateDaysRemaining v w) = true := by
  by_cases h1 : (!(isNumber v) || !(isNumber w)) = true
  · right
    simp [calculateDaysRemaining, h1]
    norm_num [jle]
  · have h1' := Bool.not_eq_true _ |>.mp h1
    simp only [calculateDaysRemaining, h1', Bool.false_eq_true, if_false]
    by_cases h2 : jle (asNum v) (.fin 0) = true
    · right; simp [h2]; norm_num [jle]
    · have h2' := Bool.not_eq_true _ |>.mp h2
      by_cases h3 : jle (asNum w) (.fin 0) = true
      · right; rw [if_neg h2, if_pos h3]; rfl
      · have h3' := Bool.not_eq_true _ |>.mp h3
        simp only [h2', h3', Bool.false_eq_true, if_false]
        exact jdiv_range _ _ h2' h3'

theorem daysRemaining_nan_cases (v w : JVal)
    (h : calculateDaysRemaining v w = JNum.nan) :
    v = .num JNum.nan ∨ w = .num JNum.nan ∨
      (v = .num JNum.inf ∧ w = .num JNum.inf) := by
  by_cases h1 : (!(isNumber v) || !(isNumber w)) = true
  · simp [calculateDaysRemaining, h1] at h
  · have h1' := Bool.not_eq_true _ |>.mp h1
    simp only [calculateDaysRemaining, h1', Bool.false_eq_true, if_false] at h
    by_cases h2 : jle (asNum v) (.fin 0) = true
    · simp [h2] at h
    · have h2' := Bool.not_eq_true _ |>.mp h2
      by_cases h3 : jle (asNum w) (.fin 0) = true
      · simp [h2', h3] at h
      · have h3' := Bool.not_eq_true _ |>.mp h3
        simp only [h2', h3', Bool.false_eq_true, if_false] at h
        have hv : isNumber v = true := by
          rcases Bool.eq_false_or_eq_true (isNumber v) with hh | hh
          · exact hh
          · rw [hh] at h1'; simp at h1'
        have hw : isNumber w = true := by
          rcases Bool.eq_false_or_eq_true (isNumber w) with hh | hh
          · exact hh
          · rw [hh] at h1'; simp at h1'
        cases v <;> try simp [isNumber] at hv
        cases w <;> try simp [isNumber] at hw
        rename_i s a
        cases s <;> cases a <;>
          simp only [asNum, jle, decide_eq_false_iff_not] at h2' h3' <;>
          first
            | (left; rfl)
            | (right; left; rfl)
            | (right; right; exact ⟨rfl, rfl⟩)
            | (exact absurd h2' (by decide))
            | (exact absurd h3' (by decide))
            | skip
        · rename_i qs qa
          exfalso
          have hqa : qa ≠ 0 := fun hz => h3' (le_of_eq hz)
          simp [asNum, jdiv, hqa] at h
        · exfalso
          simp [asNum, jdiv] at h
        · rename_i qa
          exfalso
          have hqa : (0 : ℚ) ≤ qa := le_of_lt (lt_of_not_le h3')
          simp [asNum, jdiv, hqa] at h

/-- Claim C5 (amended): calculateDaysRemaining returns 0 for non-numeric
inputs, then 0 for stock at most 0, then Infinity for demand at most 0,
otherwise stock/demand; every result is NaN or lies in [0, ∞], and a NaN
result happens only when an argument is the number NaN or both arguments
are Infinity. The function is total (it cannot raise). -/
theorem claim_C5_daysRemaining_range (currentStock avgDailyDemand : JVal) :
    ((isNumber currentStock = false ∨ isNumber avgDailyDemand = false) →
      calculateDaysRemaining currentStock avgDailyDemand = .fin 0)
  ∧ (∀ s a : JNum, currentStock = .num s → avgDailyDemand = .num a →
      calculateDaysRemaining currentStock avgDailyDemand =
        (if jle s (.fin 0) then .fin 0
         else if jle a (.fin 0) then JNum.inf
         else jdiv s a))
  ∧ (calculateDaysRemaining currentStock avgDailyDemand = JNum.nan ∨
      jle (.fin 0) (calculateDaysRemaining currentStock avgDailyDemand) = true)
  ∧ (calculateDaysRemaining currentStock avgDailyDemand = JNum.nan →
      currentStock = .num JNum.nan ∨ avgDailyDemand = .num JNum.nan ∨
        (currentStock = .num JNum.inf ∧ avgDailyDemand = .num JNum.inf)) := by
  refine ⟨?_, ?_, daysRemaining_range _ _, daysRemaining_nan_cases _ _⟩
  · intro h
    rcases h with h | h <;> simp [calculateDaysRemaining, h]
  · intro s a hs ha
    subst hs
    subst ha
    simp [calculateDaysRemaining, isNumber, asNum]

/-- Counterexample to C5 as stated: with a NaN stock the result is NaN/5 =
NaN, which does not lie in [0, ∞]. -/
theorem claim_C5_counterexample :
    calculateDaysRemaining (.num JNum.nan) (.num (.fin 5)) = JNum.nan
  ∧ jle (.fin 0) (calculateDaysRemaining (.num JNum.nan) (.num (.fin 5))) = false
  ∧ calculateDaysRemaining (.num JNum.nan) (.num (.fin 5)) ≠ JNum.inf := by
  have h1 : calculateDaysRemaining (.num JNum.nan) (.num (.fin 5)) = JNum.nan := by
    norm_num [calculateDaysRemaining, isNumber, asNum, jle, jdiv]
  refine ⟨h1, ?_, ?_⟩
  · rw [h1]; rfl
  · rw [h1]; decide

/-- Witness for C5 at concrete inputs for each hypothesis. -/
theorem claim_C5_daysRemaining_range_witness :
    calculateDaysRemaining (.str "50") (.num (.fin 10)) = .fin 0
  ∧ calculateDaysRemaining (.num (.fin 50)) (.num (.fin 10)) =
      (if jle (.fin 50) (.fin 0) then .fin 0
       else if jle (.fin 10) (.fin 0) then JNum.inf
       else jdiv (.fin 50) (.fin 10))
  ∧ (JVal.num JNum.inf = .num JNum.nan ∨ JVal.num JNum.inf = .num JNum.nan ∨
      (JVal.num JNum.inf = .num JNum.inf ∧ JVal.num JNum.inf = .num JNum.inf)) := by
  refine ⟨?_, ?_, ?_⟩
  · exact (claim_C5_daysRemaining_range (.str "50") (.num (.fin 10))).1 (Or.inl rfl)
  · exact (claim_C5_daysRemaining_range (.num (.fin 50)) (.num (.fin 10))).2.1
      (.fin 50) (.fin 10) rfl rfl
  · exact (claim_C5_daysRemaining_range (.num JNum.inf) (.num JNum.inf)).2.2.2
      (by norm_num [calculateDaysRemaining, isNumber, asNum, jle, jdiv])

theorem floorHalfCSqrt_std : floorHalfCSqrt 100 (30 / 7) = 207 := by
  rw [floorHalfCSqrt]
  norm_num
  decide

theorem floorHalfCSqrt_safety : floorHalfCSqrt 165 (150 / 7) = 764 := by
  rw [floorHalfCSqrt]
  norm_num
  decide

theorem floorHalfCSqrt_eoq : floorHalfCSqrt 100 (400000 / 7) = 23905 := by
  rw [floorHalfCSqrt]
  norm_num
  decide

/-- Claim C6: the nominal scenario. History [10,12,15,9,11,13,10], stock 50,
lead time 5, default zScore, orderCost and holdingCost give avgDailyDemand
11.43, daysRemaining 4.38, risk high, demandStdDev 2.07, safetyStock 7.64,
reorderPoint 64.78 and eoq 239.05. -/
theorem claim_C6_nominal_scenario :
    (calculateInventoryForecast
      (.arr [.num (.fin 10), .num (.fin 12), .num (.fin 15), .num (.fin 9),
             .num (.fin 11), .num (.fin 13), .num (.fin 10)])
      (.num (.fin 50)) (.num (.fin 5)) .undefined .undefined .undefined).avgDailyDemand =
        .fin (1143 / 100)
  ∧ (calculateInventoryForecast
      (.arr [.num (.fin 10), .num (.fin 12), .num (.fin 15), .num (.fin 9),
             .num (.fin 11), .num (.fin 13), .num (.fin 10)])
      (.num (.fin 50)) (.num (.fin 5)) .undefined .undefined .undefined).daysRemaining =
        .num (.fin (438 / 100))
  ∧ (calculateInventoryForecast
      (.arr [.num (.fin 10), .num (.fin 12), .num (.fin 15), .num (.fin 9),
             .num (.fin 11), .num (.fin 13), .num (.fin 10)])
      (.num (.fin 50)) (.num (.fin 5)) .undefined .undefined .undefined).riskLevel = "high"
  ∧ (calculateInventoryForecast
      (.arr [.num (.fin 10), .num (.fin 12), .num (.fin 15), .num (.fin 9),
             .num (.fin 11), .num (.fin 13), .num (.fin 10)])
      (.num (.fin 50)) (.num (.fin 5)) .undefined .undefined .undefined).demandStdDev =
        .fin (207 / 100)
  ∧ (calculateInventoryForecast
      (.arr [.num (.fin 10), .num (.fin 12), .num (.fin 15), .num (.fin 9),
             .num (.fin 11), .num (.fin 13), .num (.fin 10)])
      (.num (.fin 50)) (.num (.fin 5)) .undefined .undefined .undefined).safetyStock =
        .fin (764 / 100)
  ∧ (calculateInventoryForecast
      (.arr [.num (.fin 10), .num (.fin 12), .num (.fin 15), .num (.fin 9),
             .num (.fin 11), .num (.fin 13), .num (.fin 10)])
      (.num (.fin 50)) (.num (.fin 5)) .undefined .undefined .undefined).reorderPoint =
        .fin (6478 / 100)
  ∧ (calculateInventoryForecast
      (.arr [.num (.fin 10), .num (.fin 12), .num (.fin 15), .num (.fin 9),
             .num (.fin 11), .num (.fin 13), .num (.fin 10)])
      (.num (.fin 50)) (.num (.fin 5)) .undefined .undefined .undefined).eoq =
        .fin (23905 / 100) := by
  have havg : calculateAverageDemand
      (.arr [.num (.fin 10), .num (.fin 12), .num (.fin 15), .num (.fin 9),
             .num (.fin 11), .num (.fin 13), .num (.fin 10)]) = .fin (80 / 7) := by
    norm_num [calculateAverageDemand, validEntries, jsum, jadd, jdiv, jle,
      List.filterMap, List.foldl]
  have hsafety : calculateSafetyStock
      (.arr [.num (.fin 10), .num (.fin 12), .num (.fin 15), .num (.fin 9),
             .num (.fin 11), .num (.fin 13), .num (.fin 10)])
      (.num (.fin 5)) (.num (.fin (33 / 20))) (.num (.fin (80 / 7))) =
      ⟨.fin (207 / 100), .fin (764 / 100)⟩ := by
    norm_num [calculateSafetyStock, withDefault, isNumber, asNum, validEntries,
      jsum, sumSqDiff, jadd, jsub, jneg, jmul, jdiv, jle, jlt, rsqrt, rOfJNum,
      rmul, round2R, floorHalfCSqrt_std, floorHalfCSqrt_safety,
      List.filterMap, List.foldl]
  have hreorder : calculateReorderPoint
      (.arr [.num (.fin 10), .num (.fin 12), .num (.fin 15), .num (.fin 9),
             .num (.fin 11), .num (.fin 13), .num (.fin 10)])
      (.num (.fin 5)) (.num (.fin (33 / 20))) =
      ⟨.fin (1143 / 100), .fin (764 / 100), .fin (6478 / 100)⟩ := by
    norm_num [calculateReorderPoint, withDefault, isNumber, asNum, jlt, havg,
      hsafety, jmul, jadd, jround2, round2]
  have heoq : calculateEOQ
      (.arr [.num (.fin 10), .num (.fin 12), .num (.fin 15), .num (.fin 9),
             .num (.fin 11), .num (.fin 13), .num (.fin 10)])
      (.num (.fin 100)) (.num (.fin 10)) .undefined =
      ⟨.fin (285714 / 100), .fin (23905 / 100)⟩ := by
    norm_num [calculateEOQ, withDefault, defaultDaysPerYear, isNumber, asNum,
      jle, havg, jmul, jdiv, jround2, round2, rsqrt, round2R, floorHalfCSqrt_eoq]
  have hdays : calculateDaysRemaining (.num (.fin 50)) (.num (.fin (80 / 7))) =
      .fin (35 / 8) := by
    norm_num [calculateDaysRemaining, isNumber, asNum, jle, jdiv]
  have hrisk : detectStockoutRisk (.num (.fin (35 / 8))) (.num (.fin 5)) =
      "high" := by
    norm_num [detectStockoutRisk, isNumber, asNum, jlt, jmul]
    intro h
    exact JNum.noConfusion h
  refine ⟨?_, ?_, ?_, ?_, ?_, ?_, ?_⟩ <;>
    (norm_num [calculateInventoryForecast, withDefault, defaultZScore,
      defaultOrderCost, defaultHoldingCost, havg, hsafety, hreorder, heoq,
      hdays, hrisk, jround2, round2] <;>
     try (intro h; exact JNum.noConfusion h))

/-- Claim C7: whenever the underlying days-remaining value is Infinity, the
daysRemaining field of the forecast is the string 'Infinite'; in particular
for history [0,0,0], stock 50, lead time 5 the forecast has riskLevel 'low'
and daysRemaining 'Infinite'. -/
theorem claim_C7_infinite_sentinel :
    (∀ historicalDemand currentStock leadTime zScore orderCost holdingCost : JVal,
      calculateDaysRemaining currentStock
          (.num (calculateAverageDemand historicalDemand)) = JNum.inf →
      (calculateInventoryForecast historicalDemand currentStock leadTime zScore
          orderCost holdingCost).daysRemaining = .str "Infinite")
  ∧ (calculateInventoryForecast (.arr [.num (.fin 0), .num (.fin 0), .num (.fin 0)])
      (.num (.fin 50)) (.num (.fin 5)) .undefined .undefined .undefined).riskLevel = "low"
  ∧ (calculateInventoryForecast (.arr [.num (.fin 0), .num (.fin 0), .num (.fin 0)])
      (.num (.fin 50)) (.num (.fin 5)) .undefined .undefined .undefined).daysRemaining =
        .str "Infinite" := by
  refine ⟨?_, ?_, ?_⟩
  · intro historicalDemand currentStock leadTime zScore orderCost holdingCost h
    simp [calculateInventoryForecast, h]
  · norm_num [calculateInventoryForecast, calculateAverageDemand,
      calculateDaysRemaining, detectStockoutRisk, withDefault, isNumber, asNum,
      validEntries, jsum, jadd, jdiv, jle, jlt, List.filterMap, List.foldl]
  · norm_num [calculateInventoryForecast, calculateAverageDemand,
      calculateDaysRemaining, withDefault, isNumber, asNum,
      validEntries, jsum, jadd, jdiv, jle, List.filterMap, List.foldl]

/-- Witness for C7 at the zero-demand history. -/
theorem claim_C7_infinite_sentinel_witness :
    (calculateInventoryForecast (.arr [.num (.fin 0), .num (.fin 0), .num (.fin 0)])
      (.num (.fin 50)) (.num (.fin 5)) .undefined .undefined .undefined).daysRemaining =
        .str "Infinite" :=
  claim_C7_infinite_sentinel.1 _ _ _ _ _ _
    (by norm_num [calculateAverageDemand, calculateDaysRemaining, isNumber, asNum,
      validEntries, jsum, jadd, jdiv, jle, List.filterMap, List.foldl])

/-- Claim C9: the recommendation field is 'Reorder immediately' exactly when
riskLevel is 'high' and 'Monitor stock levels' otherwise; in particular a
medium-risk forecast still carries 'Monitor stock levels'. -/
theorem claim_C9_recommendation :
    (∀ historicalDemand currentStock leadTime zScore orderCost holdingCost : JVal,
      (calculateInventoryForecast historicalDemand currentStock leadTime zScore
          orderCost holdingCost).recommendation =
        if (calculateInventoryForecast historicalDemand currentStock leadTime zScore
            orderCost holdingCost).riskLevel = "high"
        then "Reorder immediately" else "Monitor stock levels")
  ∧ (calculateInventoryForecast (.arr [.num (.fin 10)]) (.num (.fin 60))
      (.num (.fin 5)) .undefined .undefined .undefined).riskLevel = "medium"
  ∧ (calculateInventoryForecast (.arr [.num (.fin 10)]) (.num (.fin 60))
      (.num (.fin 5)) .undefined .undefined .undefined).recommendation =
        "Monitor stock levels" := by
  refine ⟨?_, ?_, ?_⟩
  · intro historicalDemand currentStock leadTime zScore orderCost holdingCost
    rfl
  · norm_num [calculateInventoryForecast, calculateAverageDemand,
      calculateDaysRemaining, detectStockoutRisk, withDefault, isNumber, asNum,
      validEntries, jsum, jadd, jdiv, jle, jlt, jmul, List.filterMap, List.foldl]
    intro h
    exact JNum.noConfusion h
  · norm_num [calculateInventoryForecast, calculateAverageDemand,
      calculateDaysRemaining, detectStockoutRisk, withDefault, isNumber, asNum,
      validEntries, jsum, jadd, jdiv, jle, jlt, jmul, List.filterMap, List.foldl]
    intro h
    simp at h

/-- Claim C8: for every input that is falsy, not of object type, or whose
avgDailyDemand field is falsy, generateInsights returns exactly the fixed
insufficient-data bundle; being a total function, it never throws. -/
theorem claim_C8_insufficient_data (forecastData : JVal)
    (h : truthy forecastData = false ∨ isObjectType forecastData = false ∨
      truthy (getField forecastData "avgDailyDemand") = false) :
    generateInsights forecastData = insufficientDataBundle := by
  rcases h with h | h | h <;> simp [generateInsights, insufficientDataBundle, h]

/-- Witness for C8 at a missing (undefined) input. -/
theorem claim_C8_insufficient_data_witness :
    generateInsights .undefined = insufficientDataBundle :=
  claim_C8_insufficient_data .undefined (Or.inl rfl)

/-- Claim C10: generateInsights returns the status-unknown bundle for every
object whose avgDailyDemand field is the number 0 (the truthiness check
treats 0 as missing), including complete forecast results computed from an
empty, an all-invalid, and an all-zero demand history. -/
theorem claim_C10_zero_average_bundle :
    (∀ fs : List (String × JVal),
      fs.lookup "avgDailyDemand" = some (.num (.fin 0)) →
      generateInsights (.obj fs) = insufficientDataBundle)
  ∧ generateInsights (ForecastResult.toJVal (calculateInventoryForecast
      (.arr []) (.num (.fin 50)) (.num (.fin 5)) .undefined .undefined .undefined)) =
        insufficientDataBundle
  ∧ generateInsights (ForecastResult.toJVal (calculateInventoryForecast
      (.arr [.num (.fin (-1)), .str "bad"]) (.num (.fin 50)) (.num (.fin 5))
      .undefined .undefined .undefined)) = insufficientDataBundle
  ∧ generateInsights (ForecastResult.toJVal (calculateInventoryForecast
      (.arr [.num (.fin 0), .num (.fin 0), .num (.fin 0)]) (.num (.fin 50))
      (.num (.fin 5)) .undefined .undefined .undefined)) = insufficientDataBundle := by
  refine ⟨?_, ?_, ?_, ?_⟩
  · intro fs hfs
    simp [generateInsights, getField, hfs, truthy, insufficientDataBundle]
  all_goals
    norm_num [generateInsights, ForecastResult.toJVal, getField, List.lookup,
      truthy, isObjectType, insufficientDataBundle, calculateInventoryForecast,
      calculateAverageDemand, withDefault, isNumber, asNum, validEntries, jsum,
      jadd, jdiv, jle, jround2, round2, List.filterMap, List.foldl]

/-- Witness for C10 at an object carrying only a zero average field. -/
theorem claim_C10_zero_average_bundle_witness :
    generateInsights (.obj [("avgDailyDemand", .num (.fin 0))]) =
      insufficientDataBundle :=
  claim_C10_zero_average_bundle.1 [("avgDailyDemand", .num (.fin 0))] rfl
